import Mathlib

/-!
Shallow embedding of the crib-analyzer repository (src/crib.py and
src/analyzer.py).  Pure Python functions become Lean functions; the
in-place list mutations performed by the pruning helpers are made
explicit by rebuilding the candidate records; code paths that raise a
Python exception (out-of-range indexing) are modelled with Option.
Machine arithmetic is exact here (small naturals and integers); the
Python ints and floats that flow through the candidate score slot are
modelled by the exact fraction type PyQ below, so the division by 46.0
in cut_prune becomes exact division by 46.
-/

namespace CribAnalyzer

/-- The four suit constants SPADE, HEART, DIAMOND, CLUB of crib.py. -/
inductive Suit where
  | spade
  | heart
  | diamond
  | club
deriving DecidableEq

/-- The thirteen members of Card.values, in list order A,2,...,10,J,Q,K. -/
inductive RankV where
  | vA
  | v2
  | v3
  | v4
  | v5
  | v6
  | v7
  | v8
  | v9
  | v10
  | vJ
  | vQ
  | vK
deriving DecidableEq

/-- A card: a value (rank) from Card.values and a suit from Card.suits.
The Python constructor asserts membership in those lists, which the two
inductive types enforce by construction. -/
structure Card where
  value : RankV
  suit : Suit
deriving DecidableEq

/-- Card.val_to_int: pegging value (A=1, 2..10 face value, J/Q/K=10). -/
def Card.val_to_int (c : Card) : Nat :=
  match c.value with
  | .vA => 1
  | .v2 => 2
  | .v3 => 3
  | .v4 => 4
  | .v5 => 5
  | .v6 => 6
  | .v7 => 7
  | .v8 => 8
  | .v9 => 9
  | .v10 => 10
  | .vJ => 10
  | .vQ => 10
  | .vK => 10

/-- Card.val_to_index: 0-based position of the value in Card.values. -/
def Card.val_to_index (c : Card) : Nat :=
  match c.value with
  | .vA => 0
  | .v2 => 1
  | .v3 => 2
  | .v4 => 3
  | .v5 => 4
  | .v6 => 5
  | .v7 => 6
  | .v8 => 7
  | .v9 => 8
  | .v10 => 9
  | .vJ => 10
  | .vQ => 11
  | .vK => 12

/-- Card.suits, in source order. -/
def suits_list : List Suit := [.spade, .heart, .diamond, .club]

/-- Card.values, in source order. -/
def values_list : List RankV :=
  [.vA, .v2, .v3, .v4, .v5, .v6, .v7, .v8, .v9, .v10, .vJ, .vQ, .vK]

/-- Card.make_deck: the 52-card deck, suits outer loop, values inner loop. -/
def make_deck : List Card :=
  suits_list.flatMap (fun s => values_list.map (fun v => ⟨v, s⟩))

/-- The body of get_combos as a function of the hand length: nested index
loops emitting each pair [i,j], then each triple [i,j,k], then each
quadruple [i,j,k,l], and finally (only when the length is 5) the whole
hand [0,...,4]. -/
def combos_len (size : Nat) : List (List Nat) :=
  let combos := (List.range size).flatMap (fun i =>
    ((List.range size).drop (i+1)).flatMap (fun j =>
      [i, j] :: ((List.range size).drop (j+1)).flatMap (fun k =>
        [i, j, k] :: ((List.range size).drop (k+1)).map (fun l => [i, j, k, l]))))
  if size = 5 then combos ++ [List.range size] else combos

/-- get_combos from crib.py (it depends on the hand only through its length). -/
def get_combos (hand : List Card) : List (List Nat) :=
  combos_len hand.length

/-- Default card used to totalize in-range list indexing (Python indexing
with indices produced by get_combos never goes out of range). -/
def card0 : Card := ⟨.vA, .spade⟩

/-- fifteens from crib.py: the combinations whose pegging values sum to 15. -/
def fifteens (hand : List Card) (combos : List (List Nat)) : List (List Nat) :=
  combos.filter (fun combo =>
    (combo.map (fun i => (hand.getD i card0).val_to_int)).sum = 15)

/-- Stable ascending insertion: passes elements strictly below the key, so
equal elements keep their original relative order (as Python sorted does). -/
def ins_by (lt : α → α → Bool) (a : α) : List α → List α
  | [] => [a]
  | b :: bs => if lt b a then b :: ins_by lt a bs else a :: b :: bs

/-- Stable ascending sort, modelling Python sorted with a key. -/
def sort_by (lt : α → α → Bool) : List α → List α
  | [] => []
  | a :: as => ins_by lt a (sort_by lt as)

/-- One step of the loop in runs from crib.py: combinations of size at least
3 whose sorted value indices are consecutive and duplicate-free update the
pair (current_best, multiplicity). -/
def runs_step (hand : List Card) (st : List Nat × Nat) (combo : List Nat) :
    List Nat × Nat :=
  if combo.length ≥ 3 then
    let val_indices :=
      sort_by (fun a b => decide (a < b))
        (combo.map (fun i => (hand.getD i card0).val_to_index))
    let consecutive := val_indices.dropLast.all (fun i =>
      (val_indices.contains (i+1)) && (val_indices.count i ≤ 1))
    if consecutive then
      if val_indices.length > st.1.length then (val_indices, 1)
      else if val_indices.length = st.1.length then (st.1, st.2 + 1)
      else st
    else st
  else st

/-- runs from crib.py: the longest run (as sorted value indices) and its
multiplicity; starts from ([], 1). -/
def runs (hand : List Card) (combos : List (List Nat)) : List Nat × Nat :=
  combos.foldl (runs_step hand) ([], 1)

/-- pairs from crib.py: size-2 combinations whose two cards share a value. -/
def pairs (hand : List Card) (combos : List (List Nat)) : List (List Nat) :=
  combos.filter (fun combo =>
    combo.length = 2 &&
      (hand.getD (combo.getD 0 0) card0).value =
        (hand.getD (combo.getD 1 0) card0).value)

/-- suit_flush from crib.py: 1 if all cards share the suit of the first card,
0 otherwise; Python raises IndexError on an empty hand (none here). -/
def suit_flush (hand : List Card) : Option Nat :=
  match hand with
  | [] => none
  | c :: rest => some (if rest.all (fun card => card.suit == c.suit) then 1 else 0)

/-- score from analyzer.py: 2 per fifteen, 2 per pair, 4 times
suit_flush(hand[0:5]), plus suit_flush(hand) when the hand has 5 cards,
plus run length times multiplicity.  Option.bind models the propagation
of the IndexError raised by suit_flush on an empty hand. -/
def score (hand : List Card) : Option Nat :=
  (suit_flush (hand.take 5)).bind (fun fl =>
    (if hand.length = 5 then suit_flush hand else some 0).bind (fun cutFl =>
      some ((fifteens hand (get_combos hand)).length * 2
        + (pairs hand (get_combos hand)).length * 2
        + 4 * fl + cutFl
        + (runs hand (get_combos hand)).1.length * (runs hand (get_combos hand)).2)))

/-- Exact rational number as an unnormalized fraction, used to model the
Python numbers stored in a candidate score slot (ints, then int + k/2
after crib_prune, then sum/46 after cut_prune).  Every value built below
has a positive denominator (1, 2 or 46), so comparison by
cross-multiplication is exact rational comparison. -/
structure PyQ where
  num : Int
  den : Int
deriving DecidableEq

/-- The integer n as a PyQ. -/
def PyQ.ofNat (n : Nat) : PyQ := ⟨n, 1⟩

/-- Exact rational addition (unnormalized). -/
def PyQ.add (a b : PyQ) : PyQ := ⟨a.num * b.den + b.num * a.den, a.den * b.den⟩

/-- Exact rational equality test by cross-multiplication. -/
def PyQ.eqb (a b : PyQ) : Bool := a.num * b.den == b.num * a.den

/-- Exact rational strict-order test by cross-multiplication (valid since
all denominators in use are positive). -/
def PyQ.ltb (a b : PyQ) : Bool := a.num * b.den < b.num * a.den

/-- A candidate record of discard in analyzer.py: the list
[hand, discards, score].  The score slot holds an int at generation time
and is overwritten with a float (here an exact rational) by the pruners. -/
structure Cand where
  hand : List Card
  disc : List Card
  score : PyQ
deriving DecidableEq

/-- The elif chain of crib_prune for one candidate: a bonus (times the
crib multiplier) for a discard pair summing to 15, else a shared value,
else adjacent value indices (either direction), else a shared suit, plus
0.5 when either discard is a Jack.  Python indexes best[1][0] and
best[1][1]; none models the IndexError on a discard list that is too
short. -/
def adjust_disc (mult : Int) (b : Cand) : Option Cand := do
  let c0 ← b.disc[0]?
  let c1 ← b.disc[1]?
  let s1 :=
    if c0.val_to_int + c1.val_to_int = 15 then b.score.add ⟨mult * 4, 1⟩
    else if c0.value = c1.value then b.score.add ⟨mult * 3, 1⟩
    else if c0.val_to_index + 1 = c1.val_to_index then b.score.add ⟨mult * 2, 1⟩
    else if c0.val_to_index = c1.val_to_index + 1 then b.score.add ⟨mult * 2, 1⟩
    else if c0.suit = c1.suit then b.score.add ⟨mult, 1⟩
    else b.score
  let s2 := if c0.value = RankV.vJ ∨ c1.value = RankV.vJ then s1.add ⟨mult, 2⟩
    else s1
  pure { b with score := s2 }

/-- The loop while bests[-1][2] < bests[0][2]: bests.pop() of both pruners,
run with explicit fuel (one unit per iteration; the list length suffices,
since each iteration removes one element). -/
def pop_while : Nat → List Cand → List Cand
  | 0, l => l
  | fuel+1, l =>
    match l.getLast?, l.head? with
    | some lastC, some headC =>
      if lastC.score.ltb headC.score then pop_while fuel l.dropLast else l
    | _, _ => l

/-- Comparison used by both pruners for sorted(bests, key=lambda x: x[2]). -/
def cand_lt (x y : Cand) : Bool := x.score.ltb y.score

/-- crib_prune from analyzer.py: adjust the score of every candidate by the
discard-pair heuristic (negated when the crib belongs to the opponent), sort
ascending by score, then run the pop loop. -/
def crib_prune (bests : List Cand) (yours : Bool) : Option (List Cand) := do
  let mult : Int := if yours then 1 else -1
  let adjusted ← bests.mapM (adjust_disc mult)
  let s := sort_by cand_lt adjusted
  pure (pop_while s.length s)

/-- The deck-removal loop of cut_prune: for card1 in deck, remove card1
from deck when it occurs in used.  Python iterates by an internal index
that it does not rewind after a removal, so the element that slides into
the slot of a removed card is skipped; k is that index and fuel counts the
remaining iterations (the initial deck length suffices). -/
def remove_loop : Nat → List Card → List Card → Nat → List Card
  | 0, deck, _, _ => deck
  | fuel+1, deck, used, k =>
    match deck[k]? with
    | none => deck
    | some c =>
      if used.contains c then remove_loop fuel (deck.erase c) used (k+1)
      else remove_loop fuel deck used (k+1)

/-- cut_prune from analyzer.py.  used = bests[0][0]; used.extend(bests[0][1])
extends the hand list of the first candidate in place, so the first
candidate enters the averaging loop with a 6-card hand; the reference deck
is built by remove_loop; the score of each candidate is overwritten with the sum
of score(hand + [cut]) over the remaining deck divided by 46; then the same
sort and pop loop as crib_prune.  none models an IndexError (empty bests
or a score failure). -/
def cut_prune (bests : List Cand) : Option (List Cand) := do
  let b0 ← bests.head?
  let used := b0.hand ++ b0.disc
  let bests1 := { b0 with hand := used } :: bests.tail
  let deck := remove_loop make_deck.length make_deck used 0
  let bests2 ← bests1.mapM (fun b => do
    let scores ← deck.mapM (fun c => score (b.hand ++ [c]))
    pure { b with score := (⟨(scores.sum : Int), 46⟩ : PyQ) })
  let s := sort_by cand_lt bests2
  pure (pop_while s.length s)

/-- The sentinel bests = [[[], [], 0]] with which discard seeds its list. -/
def seed_cand : Cand := ⟨[], [], PyQ.ofNat 0⟩

/-- The hand built inside the double loop of discard: the list comprehension
[card for card in deal if deal.index(card) != i and deal.index(card) != j]
(deal.index is the first index of the card in deal). -/
def retained (deal : List Card) (i j : Nat) : List Card :=
  deal.filter (fun card => (deal.indexOf card != i) && (deal.indexOf card != j))

/-- One iteration of the double loop of discard over the pair (i, j): score the
retained hand, then either replace the candidate list (strictly greater
score), append (equal score), or leave it unchanged. -/
def discard_step (deal : List Card) (bests : List Cand) (ij : Nat × Nat) :
    Option (List Cand) := do
  let hand := retained deal ij.1 ij.2
  let points ← score hand
  let b0 ← bests.head?
  if b0.score.ltb (PyQ.ofNat points) then do
    let ci ← deal[ij.1]?
    let cj ← deal[ij.2]?
    pure [⟨hand, [ci, cj], PyQ.ofNat points⟩]
  else if (PyQ.ofNat points).eqb b0.score then do
    let ci ← deal[ij.1]?
    let cj ← deal[ij.2]?
    pure (bests ++ [⟨hand, [ci, cj], PyQ.ofNat points⟩])
  else
    pure bests

/-- The index pairs of the loops of discard: i in range(6), j in range(i+1, 6). -/
def pairs_idx : List (Nat × Nat) :=
  (List.range 6).flatMap (fun i => ((List.range 6).drop (i+1)).map (fun j => (i, j)))

/-- The candidate-generation stage of discard: fold the double loop over
the seeded candidate list. -/
def gen_bests (deal : List Card) : Option (List Cand) :=
  pairs_idx.foldlM (discard_step deal) [seed_cand]

/-- The mutable state of one discard invocation: the deal parameter and
the bests list.  The source assigns only to bests (and to the candidate
records inside it); it contains no assignment to deal. -/
structure DiscardState where
  deal : List Card
  bests : List Cand
deriving DecidableEq

/-- Candidate generation as a transition on the discard state. -/
def gen_stage (s : DiscardState) : Option DiscardState :=
  (gen_bests s.deal).map (fun b => { s with bests := b })

/-- if len(bests) > 1: bests = crib_prune(bests, yours), on the state. -/
def crib_stage (yours : Bool) (s : DiscardState) : Option DiscardState :=
  if s.bests.length > 1 then
    (crib_prune s.bests yours).map (fun b => { s with bests := b })
  else some s

/-- if len(bests) > 1: bests = cut_prune(bests), on the state. -/
def cut_stage (s : DiscardState) : Option DiscardState :=
  if s.bests.length > 1 then
    (cut_prune s.bests).map (fun b => { s with bests := b })
  else some s

/-- discard from analyzer.py, stopping just before the final print: the
three stages run in sequence on the state (deal, bests). -/
def discard_run (deal : List Card) (yours : Bool) : Option DiscardState :=
  ((gen_stage ⟨deal, []⟩).bind (crib_stage yours)).bind cut_stage

/-- The observable result of discard: the recommended hand bests[0][0] that the
source prints. -/
def discard (deal : List Card) (yours : Bool) : Option (List Card) := do
  let s ← discard_run deal yours
  let b0 ← s.bests.head?
  pure b0.hand

/-- Modelled from the spec words of section 4.6, for comparison with
cut_prune (the code is the authority; this is the claimed behaviour):
the arithmetic mean of the 46 individual 5-card scores obtained by
appending each card of the 52-card deck minus the given 6 used cards to
the retained hand of the candidate. -/
def spec_cut_average (b : Cand) (used : List Card) : PyQ :=
  ⟨(((make_deck.filter (fun c => !(used.contains c))).map
    (fun c => (score (b.hand ++ [c])).getD 0)).sum : Int), 46⟩

/-- Boolean test that a list of indices is strictly increasing. -/
def strictly_inc : List Nat → Bool
  | [] => true
  | [_] => true
  | a :: b :: rest => decide (a < b) && strictly_inc (b :: rest)

/-- A 6-card deal (A spades, 2 spades, 6 spades, 10 hearts, Q hearts,
K hearts) in which every retained 4-card hand scores 0: no pair, no run,
no subset of pegging values summing to 15, at most 3 cards per suit. -/
def zero_deal : List Card :=
  [⟨.vA, .spade⟩, ⟨.v2, .spade⟩, ⟨.v6, .spade⟩,
   ⟨.v10, .heart⟩, ⟨.vQ, .heart⟩, ⟨.vK, .heart⟩]

/-- A 6-card deal whose unique best discard keeps 5 spades, 5 clubs,
5 hearts, J diamonds (score 14, all other retained hands score lower),
so discard skips both pruning stages. -/
def uniq_deal : List Card :=
  [⟨.v5, .spade⟩, ⟨.v5, .club⟩, ⟨.v5, .heart⟩,
   ⟨.vJ, .diamond⟩, ⟨.v2, .spade⟩, ⟨.v7, .heart⟩]

/-- The retained hand shared by the two crib_prune test candidates. -/
def cp_hand : List Card :=
  [⟨.vA, .spade⟩, ⟨.v2, .heart⟩, ⟨.v3, .diamond⟩, ⟨.v4, .club⟩]

/-- A candidate whose discard pair 7 diamonds + 8 hearts sums to 15
(crib-potential bonus 4), entering crib_prune with score 4. -/
def cp_c1 : Cand := ⟨cp_hand, [⟨.v7, .diamond⟩, ⟨.v8, .heart⟩], PyQ.ofNat 4⟩

/-- A candidate whose discard pair 2 diamonds + 9 hearts earns no
crib-potential bonus, entering crib_prune with score 4. -/
def cp_c2 : Cand := ⟨cp_hand, [⟨.v2, .diamond⟩, ⟨.v9, .heart⟩], PyQ.ofNat 4⟩

/-- First cut_prune test candidate, from the deal
{A spades, 2 spades, 4 hearts, 6 diamonds, 8 clubs, 10 spades}:
A spades and 2 spades are adjacent in the deck built by make_deck. -/
def cut_c1 : Cand :=
  ⟨[⟨.vA, .spade⟩, ⟨.v2, .spade⟩, ⟨.v4, .heart⟩, ⟨.v6, .diamond⟩],
   [⟨.v8, .club⟩, ⟨.v10, .spade⟩], PyQ.ofNat 0⟩

/-- Second cut_prune test candidate, from the same deal. -/
def cut_c2 : Cand :=
  ⟨[⟨.vA, .spade⟩, ⟨.v2, .spade⟩, ⟨.v4, .heart⟩, ⟨.v8, .club⟩],
   [⟨.v6, .diamond⟩, ⟨.v10, .spade⟩], PyQ.ofNat 0⟩

/-- The six cards committed by the first cut_prune test candidate. -/
def cut_used : List Card := cut_c1.hand ++ cut_c1.disc

/-- The maximum cribbage hand of section 8 of the spec: 5 spades, 5 clubs,
5 hearts, J diamonds, with cut 5 diamonds. -/
def hand29 : List Card :=
  [⟨.v5, .spade⟩, ⟨.v5, .club⟩, ⟨.v5, .heart⟩, ⟨.vJ, .diamond⟩, ⟨.v5, .diamond⟩]

/-- The hand A,2,3,4,5 all of one suit, from section 8 of the spec. -/
def hand_a5 : List Card :=
  [⟨.vA, .spade⟩, ⟨.v2, .spade⟩, ⟨.v3, .spade⟩, ⟨.v4, .spade⟩, ⟨.v5, .spade⟩]

/-- gen_stage only replaces the bests component of the state. -/
theorem gen_stage_deal {s s' : DiscardState} (h : gen_stage s = some s') :
    s'.deal = s.deal := by
  unfold gen_stage at h
  cases hg : gen_bests s.deal with
  | none => rw [hg] at h; cases h
  | some b => rw [hg] at h; cases h; rfl

/-- crib_stage only replaces the bests component of the state. -/
theorem crib_stage_deal {y : Bool} {s s' : DiscardState}
    (h : crib_stage y s = some s') : s'.deal = s.deal := by
  unfold crib_stage at h
  split at h
  · cases hg : crib_prune s.bests y with
    | none => rw [hg] at h; cases h
    | some b => rw [hg] at h; cases h; rfl
  · cases h; rfl

/-- cut_stage only replaces the bests component of the state. -/
theorem cut_stage_deal {s s' : DiscardState} (h : cut_stage s = some s') :
    s'.deal = s.deal := by
  unfold cut_stage at h
  split at h
  · cases hg : cut_prune s.bests with
    | none => rw [hg] at h; cases h
    | some b => rw [hg] at h; cases h; rfl
  · cases h; rfl

/-- Claim C1, refuted (code bug): the claim awards the 4-point flush
whenever the 4 retained cards share a suit regardless of the cut, but
score applies suit_flush to hand[0:5], which for a scored 5-card hand
includes the cut card.  The all-spade retained hand 2,4,6,8 (alone worth
4, first conjunct) scores 0 with the off-suit cut K hearts (second
conjunct, a hand with no fifteen, pair or run), instead of the claimed 4
flush points. -/
theorem c1_flush_points_eval :
    score [⟨.v2, .spade⟩, ⟨.v4, .spade⟩, ⟨.v6, .spade⟩, ⟨.v8, .spade⟩] = some 4
    ∧ score [⟨.v2, .spade⟩, ⟨.v4, .spade⟩, ⟨.v6, .spade⟩, ⟨.v8, .spade⟩,
        ⟨.vK, .heart⟩] = some 0 := by
  decide

/-- Claim C2, refuted (code bug): crib_prune is claimed to keep only the
candidates with the maximal adjusted score, but after the ascending sort
the loop condition bests[-1][2] < bests[0][2] compares the maximum with
the minimum and never fires, so nothing is pruned: on two candidates with
adjusted scores 4 and 8 the function returns both, lowest first (and the
final recommendation bests[0] is then the minimum, not the maximum). -/
theorem c2_prune_keeps_all_eval :
    crib_prune [cp_c1, cp_c2] true =
      some [⟨cp_hand, [⟨.v2, .diamond⟩, ⟨.v9, .heart⟩], PyQ.ofNat 4⟩,
            ⟨cp_hand, [⟨.v7, .diamond⟩, ⟨.v8, .heart⟩], PyQ.ofNat 8⟩] := by
  decide

/-- Claim C3, refuted (code bug): the scores written by cut_prune are
claimed to equal the arithmetic mean of the 46 individual 5-card scores
over the 52-card deck minus the 6 committed cards.  On two candidates from
the deal {A spades, 2 spades, 4 hearts, 6 diamonds, 8 clubs, 10 spades}
the first output candidate keeps a 4-card hand but the second keeps the
6-card hand produced by the aliasing used = bests[0][0]; used.extend(...)
(first conjunct), and under neither ordering do the two written scores
equal the two spec means (remaining conjuncts): the in-place deck removal
skips 2 spades, which is adjacent to the removed A spades, leaving 47 cut
cards, and the first candidate is averaged over 7-card hands. -/
theorem c3_cut_average_eval :
    (cut_prune [cut_c1, cut_c2]).map (fun l => l.map (fun b => b.hand.length)) =
      some [4, 6]
    ∧ (cut_prune [cut_c1, cut_c2]).map (fun l =>
        l.map (fun b => b.score.eqb (spec_cut_average cut_c1 cut_used))) =
      some [false, false]
    ∧ (cut_prune [cut_c1, cut_c2]).map (fun l =>
        l.map (fun b => b.score.eqb (spec_cut_average cut_c2 cut_used))) =
      some [false, false] := by
  set_option maxRecDepth 100000 in decide

/-- Claim C4, refuted (code bug): the candidate set before pruning is
claimed to be exactly the retained hands of maximal 4-card score.  On
zero_deal every one of the 15 retained hands scores 0, which ties the
initial sentinel [[], [], 0], so the generator returns 16 entries whose
first is the malformed sentinel. -/
theorem c4_sentinel_survives_eval :
    (gen_bests zero_deal).map (fun l => (l.length, l.head?)) =
      some (16, some seed_cand) := by
  decide

/-- Claim C5, refuted (code bug): discard is claimed to complete on every
6-card deal of distinct valid cards, but on zero_deal the sentinel
candidate with an empty discard list survives generation and crib_prune
indexes best[1][0] on it, an IndexError (modelled by none). -/
theorem c5_discard_crashes_eval : discard zero_deal true = none := by
  decide

/-- Claim C6, counterexample: the two known-hand values claimed by the
spec (29 and 20) are not what score returns. -/
theorem c6_known_hands_counterexample :
    ¬ (score hand29 = some 29 ∧ score hand_a5 = some 20) := by
  decide

/-- Claim C6 as amended: the 5-of-a-kind-with-Jack hand scores 28 (the
29th point is his nobs, which the engine does not implement), and the
suited A,2,3,4,5 hand scores 12 (one fifteen, a run of 5, a flush of 5). -/
theorem c6_known_hands_amended :
    score hand29 = some 28 ∧ score hand_a5 = some 12 := by
  decide

/-- Claim C7, counterexample: invoked on a 6-card hand, score computes
and returns a value (here 0) instead of failing with InvalidHandSize. -/
theorem c7_no_failure_counterexample :
    zero_deal.length = 6 ∧ score zero_deal = some 0 := by
  decide

/-- Claim C7 as amended: the scoring engine validates no hand size at
all: it returns a score for every non-empty hand of any size, and fails
only on the empty hand (an IndexError from suit_flush, not an
InvalidHandSize condition). -/
theorem c7_amended_no_size_check (hand : List Card) :
    (score hand).isSome ↔ hand ≠ [] := by
  cases hand with
  | nil => simp [score, suit_flush]
  | cons c t =>
    have h1 : suit_flush ((c :: t).take 5) =
        some (if (t.take 4).all (fun card => card.suit == c.suit) then 1 else 0) := rfl
    have h2 : suit_flush (c :: t) =
        some (if t.all (fun card => card.suit == c.suit) then 1 else 0) := rfl
    simp only [score, h1, Option.some_bind]
    by_cases h5 : t.length = 4
    · simp [h5, h2]
    · simp [h5]

/-- Claim C8, confirmed: on a hand of size 4 the combination generator
yields exactly (as a permutation of, with no duplicates) the 11 subsets
of positions of sizes 2..4, each strictly increasing, and on a hand of
size 5 exactly the 26 subsets of sizes 2..5; the sublists of range n
enumerate precisely the strictly increasing position sequences. -/
theorem c8_combos_exact (hand : List Card) :
    (hand.length = 4 →
      List.Perm (get_combos hand)
        ((List.range 4).sublists.filter (fun s => 2 ≤ s.length))
      ∧ (get_combos hand).length = 11
      ∧ (get_combos hand).Nodup
      ∧ (get_combos hand).all strictly_inc)
    ∧ (hand.length = 5 →
      List.Perm (get_combos hand)
        ((List.range 5).sublists.filter (fun s => 2 ≤ s.length))
      ∧ (get_combos hand).length = 26
      ∧ (get_combos hand).Nodup
      ∧ (get_combos hand).all strictly_inc) := by
  constructor
  · intro h; unfold get_combos; rw [h]; decide
  · intro h; unfold get_combos; rw [h]; decide

/-- Witness for C8 at a concrete 4-card and a concrete 5-card hand. -/
theorem c8_combos_exact_witness :
    List.Perm (get_combos cp_hand)
      ((List.range 4).sublists.filter (fun s => 2 ≤ s.length))
    ∧ (get_combos hand29).length = 26 :=
  ⟨((c8_combos_exact cp_hand).1 rfl).1, (((c8_combos_exact hand29).2 rfl).2).1⟩

/-- Claim C9, confirmed: discard is a pure function of the deal and the
crib flag — the embedding threads no other state, mirroring the source,
which reads only its two parameters and fresh local lists (the deck is
rebuilt inside every call and card values are immutable). -/
theorem c9_discard_deterministic (d1 d2 : List Card) (y1 y2 : Bool)
    (hd : d1 = d2) (hy : y1 = y2) : discard d1 y1 = discard d2 y2 := by
  rw [hd, hy]

/-- Witness for C9: two invocations on uniq_deal agree. -/
theorem c9_discard_deterministic_witness :
    discard uniq_deal true = discard uniq_deal true :=
  c9_discard_deterministic uniq_deal uniq_deal true true rfl rfl

/-- Claim C10, confirmed: every stage of discard maps the state (deal,
bests) to a state with the same deal — the pruners mutate only candidate
records and the bests list (the cut_prune hand extension is visible in
the bests component), and the source contains no assignment to deal. -/
theorem c10_deal_unchanged (deal : List Card) (yours : Bool)
    (s : DiscardState) (h : discard_run deal yours = some s) : s.deal = deal := by
  unfold discard_run at h
  rcases Option.bind_eq_some.mp h with ⟨s2, h12, h3⟩
  rcases Option.bind_eq_some.mp h12 with ⟨s1, h1, h2⟩
  calc s.deal = s2.deal := cut_stage_deal h3
    _ = s1.deal := crib_stage_deal h2
    _ = deal := gen_stage_deal h1

/-- Witness for C10: on uniq_deal the run completes with the deal intact. -/
theorem c10_deal_unchanged_witness :
    discard_run uniq_deal true = some
      ⟨uniq_deal,
       [⟨[⟨.v5, .spade⟩, ⟨.v5, .club⟩, ⟨.v5, .heart⟩, ⟨.vJ, .diamond⟩],
         [⟨.v2, .spade⟩, ⟨.v7, .heart⟩], PyQ.ofNat 14⟩]⟩
    ∧ (⟨uniq_deal,
       [⟨[⟨.v5, .spade⟩, ⟨.v5, .club⟩, ⟨.v5, .heart⟩, ⟨.vJ, .diamond⟩],
         [⟨.v2, .spade⟩, ⟨.v7, .heart⟩], PyQ.ofNat 14⟩]⟩ : DiscardState).deal = uniq_deal :=
  ⟨by decide,
   c10_deal_unchanged uniq_deal true
     ⟨uniq_deal,
      [⟨[⟨.v5, .spade⟩, ⟨.v5, .club⟩, ⟨.v5, .heart⟩, ⟨.vJ, .diamond⟩],
        [⟨.v2, .spade⟩, ⟨.v7, .heart⟩], PyQ.ofNat 14⟩]⟩ (by decide)⟩

end CribAnalyzer
